import Mathlib

/-!
Verification development for the medical RAG pipeline.

Shallow embedding of the retrieval-and-generation core:
  * `config/settings.py`  — configuration constants.
  * `src/rag_system.py`   — translation, retrieval/ranking, context assembly,
    answer generation and the query orchestrator (`MedicalRAGSystem`).
  * `src/text_processor.py` — cleaning, abbreviation expansion and
    sentence-based chunking (`MedicalTextProcessor`).

Strings are modelled as `List Char`; times as `ℚ` (wall-clock measurements are
taken as parameters, since they are environment inputs); similarity scores as
`ℚ`.  The external collaborators (vector index, generation model) are modelled
as inputs: the candidate list the index returned, and the outcome of an HTTP
call to the generation model.
-/

abbrev Str := List Char

/-! ### Configuration constants (config/settings.py, lines 23-24 and 37-39) -/

def SEARCH_TOP_K : Nat := 5

def SIMILARITY_THRESHOLD : ℚ := mkRat 3 10

def CHUNK_SIZE : Nat := 300

def CHUNK_OVERLAP : Nat := 50

def OLLAMA_MODEL : Str := "llama3.1:8b-instruct-q4_0".data

/-- Python's `x or default` for an optional int argument: `None` and `0` are
falsy and replaced by the default (`top_k = top_k or settings.SEARCH_TOP_K`). -/
def pyOrNat (v : Option Nat) (d : Nat) : Nat :=
  match v with
  | none => d
  | some x => if x = 0 then d else x

/-- Python's `x or default` for an optional float argument: `None` and `0.0`
are falsy and replaced by the default. -/
def pyOrQ (v : Option ℚ) (d : ℚ) : ℚ :=
  match v with
  | none => d
  | some x => if x = 0 then d else x

/-! ### Search results (vector_store.py `search_similar`, lines 240-247)

Each formatted result is a dict `{id, content, metadata, similarity_score}`;
the metadata fields consumed by `_format_context_from_documents` are
modelled explicitly.  A field that is absent, or present but falsy (empty
string / empty list), renders nothing, so absent-or-empty is modelled by
`none` / `some []`. -/

structure DocMetadata where
  title : Option Str
  authors : Option (List Str)
  journal : Option Str
  publication_date : Option Str
  pmid : Option Str
deriving DecidableEq

structure SearchResult where
  id : Str
  content : Str
  metadata : DocMetadata
  similarity_score : ℚ
deriving DecidableEq

/-! ### rag_system.py -/

/-- Metadata dict of a `RAGResponse` (rag_system.py lines 313-318 and
337-343).  The no-documents path omits the `ollama_model` key, hence the
`Option`. -/
structure RAGMetadata where
  similarity_threshold : ℚ
  requested_top_k : Nat
  found_documents : Nat
  ollama_model : Option Str
  english_query : Str
deriving DecidableEq

/-- rag_system.py lines 20-29. -/
structure RAGResponse where
  query : Str
  answer : Str
  source_documents : List SearchResult
  search_time_ms : ℚ
  generation_time_ms : ℚ
  total_time_ms : ℚ
  metadata : RAGMetadata
deriving DecidableEq

namespace MedicalRAGSystem

/-- Outcome of the HTTP call to the generation model, as distinguished by the
`except` clauses of rag_system.py.  `success r` carries the optional
`response` field of the JSON body (`result.get('response', ...)`). -/
inductive GenOutcome where
  | timeout
  | connectionError
  | otherError (detail : Str)
  | success (response : Option Str)

/-- rag_system.py line 269. -/
def timeoutMessage : Str :=
  "回答生成がタイムアウトしました。より簡潔な質問で再試行してください。".data

/-- rag_system.py line 272. -/
def connectionErrorMessage : Str :=
  "Ollamaサーバーに接続できません。サーバーが起動しているか確認してください。".data

/-- rag_system.py line 275: `f"回答生成中にエラーが発生しました: {str(e)}"`. -/
def otherErrorMessage (detail : Str) : Str :=
  "回答生成中にエラーが発生しました: ".data ++ detail

/-- rag_system.py line 261: default when the JSON lacks a `response` field. -/
def generationFailedMessage : Str := "回答の生成に失敗しました。".data

/-- rag_system.py line 308: fixed answer when retrieval found nothing. -/
def noDocumentsAnswer : Str :=
  "申し訳ございませんが、ご質問に関連する医学文献が見つかりませんでした。異なるキーワードで再度お試しください。".data

/-- `MedicalRAGSystem.generate_answer` (rag_system.py lines 222-275).
`question` and `context` feed the prompt of the HTTP call, whose result is
abstracted into `outcome`; `elapsed` is the wall-clock time measured on the
success path.  All failure branches are `except` clauses that return a
message instead of raising, so the embedding is a total function. -/
def generate_answer (_question _context : Str) (outcome : GenOutcome)
    (elapsed : ℚ) : Str × ℚ :=
  match outcome with
  | .timeout => (timeoutMessage, 0)
  | .connectionError => (connectionErrorMessage, 0)
  | .otherError e => (otherErrorMessage e, 0)
  | .success r => (r.getD generationFailedMessage, elapsed)

/-- Outcome of the HTTP call made by `translate_query_to_english`; `error`
covers every exception (timeout, connection failure, bad JSON, HTTP error
status), all caught by the single `except Exception` clause. -/
inductive TranslateOutcome where
  | error
  | success (response : Option Str)

def isPySpace (c : Char) : Bool :=
  c = ' ' || c = '\t' || c = '\n' || c = '\r' || c = '\x0b' || c = '\x0c'

/-- Python `str.strip()`. -/
def pyStrip (s : Str) : Str :=
  ((s.dropWhile isPySpace).reverse.dropWhile isPySpace).reverse

/-- Python `str.replace('\n', ' ')`. -/
def replaceNewlines (s : Str) : Str :=
  s.map (fun c => if c = '\n' then ' ' else c)

/-- Python `s.split('.')[0]`: everything before the first `'.'`. -/
def beforeFirstDot (s : Str) : Str :=
  s.takeWhile (fun c => c ≠ '.')

/-- `MedicalRAGSystem.translate_query_to_english` (rag_system.py lines
75-131).  The HTTP call is abstracted into `outcome`; `elapsed` is the
measured wall-clock time (computed in both the success and the error
branch). -/
def translate_query_to_english (outcome : TranslateOutcome) (elapsed : ℚ)
    (query : Str) : Str × ℚ :=
  match outcome with
  | .error => (query, elapsed)
  | .success r =>
    let e0 := pyStrip (r.getD [])
    let e1 := pyStrip (replaceNewlines e0)
    let e2 := if e1.contains '.' then pyStrip (beforeFirstDot e1) else e1
    ((if e2 = [] then query else e2), elapsed)

/-- `MedicalRAGSystem.search_relevant_documents` (rag_system.py lines
133-179), given the candidate list the vector index returned for the
translated query (the index is queried for `top_k * 2` candidates; whatever
list it produced is the `candidates` input here), the translated query and
the measured search time.  Falsy `top_k` / `similarity_threshold` arguments
are replaced by the configured defaults (lines 151-152); candidates are
filtered by `similarity_score >= similarity_threshold` preserving order
(lines 164-167) and truncated to the first `top_k` (line 170). -/
def search_relevant_documents (candidates : List SearchResult)
    (translated : Str) (searchTime : ℚ)
    (top_k : Option Nat) (similarity_threshold : Option ℚ) :
    List SearchResult × ℚ × Str :=
  let k := pyOrNat top_k SEARCH_TOP_K
  let thr := pyOrQ similarity_threshold SIMILARITY_THRESHOLD
  ((candidates.filter (fun r => thr ≤ r.similarity_score)).take k,
   searchTime, translated)

/-- Model of Python `f"{x:.3f}"` for a rational score: the value is scaled by
1000 and rounded to the nearest integer — `⌊1000q + 1/2⌋`, written as the
integer floor-division `(2000·num + den) fdiv (2·den)` (Python rounds the
underlying binary double half-to-even; the model rounds halves up, which
agrees wherever the thousandths are not an exact tie) — then rendered with
three digits after the decimal point. -/
def formatScore3 (q : ℚ) : Str :=
  let n : Int := Int.fdiv (2000 * q.num + (q.den : Int)) (2 * (q.den : Int))
  let m := n.natAbs
  let intPart := (Nat.repr (m / 1000)).data
  let frac := (Nat.repr (m % 1000)).data
  let fracPadded := List.replicate (3 - frac.length) '0' ++ frac
  (if n < 0 then ['-'] else []) ++ intPart ++ '.' :: fracPadded

/-- rag_system.py line 192: fixed context for an empty result list. -/
def noRelevantContext : Str := "関連する医学文献が見つかりませんでした。".data

/-- rag_system.py line 220: `"="*80`. -/
def ruleLine : Str := List.replicate 80 '='

/-- One labeled block of `_format_context_from_documents` (rag_system.py
lines 196-218): 1-based label, then title, first 2 authors, journal,
publication date and PMID whenever present and non-empty (Python truthiness),
then similarity score to 3 decimals and the chunk content. -/
def formatDocInfo (i : Nat) (doc : SearchResult) : Str :=
  let d0 := "【文献".data ++ (Nat.repr i).data ++ "】".data
  let d1 := d0 ++ (match doc.metadata.title with
    | some t => if t ≠ [] then ' ' :: t else []
    | none => [])
  let d2 := d1 ++ (match doc.metadata.authors with
    | some as =>
      if as ≠ [] then
        if as.take 2 ≠ [] then
          " (著者: ".data ++ List.intercalate ", ".data (as.take 2) ++ ")".data
        else []
      else []
    | none => [])
  let d3 := d2 ++ (match doc.metadata.journal with
    | some j => if j ≠ [] then " - ".data ++ j else []
    | none => [])
  let d4 := d3 ++ (match doc.metadata.publication_date with
    | some d => if d ≠ [] then " (".data ++ d ++ ")".data else []
    | none => [])
  let d5 := d4 ++ (match doc.metadata.pmid with
    | some p => if p ≠ [] then " [PMID: ".data ++ p ++ "]".data else []
    | none => [])
  d5 ++ "\n類似度: ".data ++ formatScore3 doc.similarity_score ++ "\n".data
     ++ "内容: ".data ++ doc.content ++ "\n".data

/-- The `context_parts` list built by the loop of
`_format_context_from_documents` (rag_system.py lines 194-218):
`enumerate(documents, 1)` rendered through `formatDocInfo`. -/
def contextBlocks (documents : List SearchResult) : List Str :=
  (List.enumFrom 1 documents).map (fun p => formatDocInfo p.1 p.2)

/-- `MedicalRAGSystem._format_context_from_documents` (rag_system.py lines
181-220).  Note the final expression of the source,
`"\n" + "="*80 + "\n".join(context_parts)`: the rule line is prepended once,
and the blocks are joined by a bare newline. -/
def format_context_from_documents (documents : List SearchResult) : Str :=
  if documents = [] then noRelevantContext
  else '\n' :: ruleLine ++ List.intercalate "\n".data (contextBlocks documents)

/-- `MedicalRAGSystem.query` (rag_system.py lines 277-344).  `gen` abstracts
`generate_answer` (whose HTTP call is an external effect): it maps the user
query and the assembled context to an answer and a generation time.
`candidates`/`translated`/`searchTime` feed the retrieval stage as in
`search_relevant_documents`; `totalTime` is the measured wall-clock total. -/
def query (gen : Str → Str → Str × ℚ) (candidates : List SearchResult)
    (translated : Str) (searchTime totalTime : ℚ) (user_query : Str)
    (top_k : Option Nat) (similarity_threshold : Option ℚ) : RAGResponse :=
  let res := search_relevant_documents candidates translated searchTime
    top_k similarity_threshold
  let relevant_docs := res.1
  let search_time := res.2.1
  let english_query := res.2.2
  if relevant_docs = [] then
    { query := user_query
      answer := noDocumentsAnswer
      source_documents := []
      search_time_ms := search_time
      generation_time_ms := 0
      total_time_ms := totalTime
      metadata :=
        { similarity_threshold := pyOrQ similarity_threshold SIMILARITY_THRESHOLD
          requested_top_k := pyOrNat top_k SEARCH_TOP_K
          found_documents := 0
          ollama_model := none
          english_query := english_query } }
  else
    let context := format_context_from_documents relevant_docs
    let ans := gen user_query context
    { query := user_query
      answer := ans.1
      source_documents := relevant_docs
      search_time_ms := search_time
      generation_time_ms := ans.2
      total_time_ms := totalTime
      metadata :=
        { similarity_threshold := pyOrQ similarity_threshold SIMILARITY_THRESHOLD
          requested_top_k := pyOrNat top_k SEARCH_TOP_K
          found_documents := relevant_docs.length
          ollama_model := some OLLAMA_MODEL
          english_query := english_query } }

end MedicalRAGSystem

/-! ### text_processor.py -/

namespace MedicalTextProcessor

/-- Python regex `\w` for the character ranges that survive `clean_text`
(ASCII plus the Hiragana, Katakana and CJK ranges of line 107): ASCII
alphanumerics, underscore, and the kept CJK ranges (all of which are word
characters for Python's Unicode `\b`). -/
def isWordChar (c : Char) : Bool :=
  c.isAlphanum || c = '_' ||
  (0x3040 ≤ c.toNat && c.toNat ≤ 0x309F) ||
  (0x30A0 ≤ c.toNat && c.toNat ≤ 0x30FF) ||
  (0x4E00 ≤ c.toNat && c.toNat ≤ 0x9FAF)

/-- Case-insensitive literal match of `pat` against the front of `s`
(`re.IGNORECASE`). -/
def ciLeads : Str → Str → Bool
  | [], _ => true
  | _ :: _, [] => false
  | p :: ps, c :: cs => (p.toLower == c.toLower) && ciLeads ps cs

/-- `\b` to the left of a word character, given the character preceding the
current position in the original string (`none` at the start of the
string). -/
def boundaryBefore : Option Char → Bool
  | none => true
  | some c => !isWordChar c

/-- `\b` to the right of a word character, given the rest of the string
after the match. -/
def boundaryAfterAt : Str → Bool
  | [] => true
  | c :: _ => !isWordChar c

/-- Whether the pattern `\b pat \b` (case-insensitive, `pat` beginning and
ending with word characters) matches at the current position. -/
def matchAt (pat : Str) (prev : Option Char) (s : Str) : Bool :=
  !pat.isEmpty && boundaryBefore prev && ciLeads pat s
    && boundaryAfterAt (s.drop pat.length)

/-- Fuel-indexed scanner for `re.sub(r'\b'+pat+r'\b', repl, s, flags=re.I)`
with a literal replacement: scans left to right, replaces non-overlapping
matches, and resumes immediately after each match (the replacement text is
not rescanned).  A match consumes at least one character, so fuel
`s.length` always suffices; with exhausted fuel the rest is returned
unchanged. -/
def subWordCIF (pat repl : Str) : Nat → Option Char → Str → Str
  | 0, _, s => s
  | _ + 1, _, [] => []
  | fuel + 1, prev, c :: cs =>
    if matchAt pat prev (c :: cs) then
      repl ++ subWordCIF pat repl fuel ((List.take pat.length (c :: cs)).getLast?)
        (cs.drop (pat.length - 1))
    else
      c :: subWordCIF pat repl fuel (some c) cs

/-- `re.sub(r'\b'+pat+r'\b', repl, s, flags=re.IGNORECASE)` for a literal
word pattern and literal replacement. -/
def subWordCI (pat repl s : Str) : Str := subWordCIF pat repl s.length none s

/-- Whether `\b pat \b` matches anywhere in `s` (given the character
preceding `s`, `none` at string start). -/
def hasWordCI (pat : Str) : Option Char → Str → Bool
  | _, [] => false
  | prev, c :: cs => matchAt pat prev (c :: cs) || hasWordCI pat (some c) cs

/-- text_processor.py lines 52-74, in insertion order (Python dicts iterate
in insertion order). -/
def medical_abbreviations : List (Str × Str) :=
  [("MI".data, "myocardial infarction".data),
   ("HTN".data, "hypertension".data),
   ("DM".data, "diabetes mellitus".data),
   ("CAD".data, "coronary artery disease".data),
   ("COPD".data, "chronic obstructive pulmonary disease".data),
   ("CHF".data, "congestive heart failure".data),
   ("CVA".data, "cerebrovascular accident".data),
   ("ICU".data, "intensive care unit".data),
   ("ER".data, "emergency room".data),
   ("OR".data, "operating room".data),
   ("CT".data, "computed tomography".data),
   ("MRI".data, "magnetic resonance imaging".data),
   ("ECG".data, "electrocardiogram".data),
   ("EKG".data, "electrocardiogram".data),
   ("CBC".data, "complete blood count".data),
   ("BUN".data, "blood urea nitrogen".data),
   ("HIV".data, "human immunodeficiency virus".data),
   ("AIDS".data, "acquired immunodeficiency syndrome".data),
   ("COVID".data, "coronavirus disease".data),
   ("SARS".data, "severe acute respiratory syndrome".data),
   ("MERS".data, "Middle East respiratory syndrome".data)]

/-- One step of the abbreviation loop (text_processor.py lines 127-131):
`re.sub(r'\b'+abbrev+r'\b', f"{abbrev} ({full_form})", text, flags=re.I)`. -/
def applyAbbrev (t : Str) (pr : Str × Str) : Str :=
  subWordCI pr.1 (pr.1 ++ " (".data ++ pr.2 ++ ")".data) t

/-- `MedicalTextProcessor.normalize_medical_terms` (text_processor.py lines
114-138): abbreviation expansion in table order, then the three unit
normalizations. -/
def normalize_medical_terms (t : Str) : Str :=
  let t1 := medical_abbreviations.foldl applyAbbrev t
  let t2 := subWordCI "mg/dl".data "mg/dL".data t1
  let t3 := subWordCI "mmhg".data "mmHg".data t2
  subWordCI "kg/m2".data "kg/m²".data t3

def isSentEnd (c : Char) : Bool := c = '.' || c = '!' || c = '?'

def headIsSpace : Str → Bool
  | [] => false
  | c :: _ => MedicalRAGSystem.isPySpace c

/-- Fuel-indexed scanner for `re.split(r'[.!?]\s+', text)`: a separator is
one sentence-ending character followed by a maximal non-empty run of
whitespace.  Each step consumes at least one character, so fuel
`text.length` suffices. -/
def splitSentF : Nat → Str → Str → List Str
  | 0, acc, rest => [acc.reverse ++ rest]
  | _ + 1, acc, [] => [acc.reverse]
  | fuel + 1, acc, c :: cs =>
    if isSentEnd c && headIsSpace cs then
      acc.reverse :: splitSentF fuel [] (cs.dropWhile MedicalRAGSystem.isPySpace)
    else
      splitSentF fuel (c :: acc) cs

/-- `re.split(r'[.!?]\s+', text)` (text_processor.py lines 200-201). -/
def splitOnSentenceEndings (t : Str) : List Str := splitSentF t.length [] t

/-- One step of the merge loop of `_split_into_sentences` (text_processor.py
lines 204-211): strip; a stripped sentence shorter than 20 characters is
appended (with `". "`) to the previous one when one exists; empty sentences
are dropped. -/
def mergeStep (processed : List Str) (sentence : Str) : List Str :=
  let s := MedicalRAGSystem.pyStrip sentence
  if s.length < 20 && !processed.isEmpty then
    processed.dropLast ++ [processed.getLastD [] ++ ". ".data ++ s]
  else if !s.isEmpty then processed ++ [s]
  else processed

/-- `MedicalTextProcessor._split_into_sentences` (text_processor.py lines
197-213). -/
def split_into_sentences (t : Str) : List Str :=
  (splitOnSentenceEndings t).foldl mergeStep []

/-- `MedicalTextProcessor._get_overlap_text` (text_processor.py lines
215-226).  Note `text[-overlap_size:]` is the whole string when
`overlap_size = 0` (Python `-0` slicing), and the tail is trimmed to start
after its first `' '` only when that space sits at a positive index. -/
def get_overlap_text (text : Str) (overlap_size : Nat) : Str :=
  if text.length ≤ overlap_size then text
  else
    let tail := if overlap_size = 0 then text
      else text.drop (text.length - overlap_size)
    match tail.findIdx? (fun c => c == ' ') with
    | some i => if 0 < i then tail.drop (i + 1) else tail
    | none => tail

/-- text_processor.py lines 17-24 (the fields the chunking algorithm
produces; the metadata dict is a copy of the article metadata plus a
constant tag and is not needed by the verified properties). -/
structure TextChunk where
  id : Str
  content : Str
  chunk_index : Nat
deriving DecidableEq

/-- `f"{metadata.get('pmid', 'unknown')}_{chunk_index}"` (text_processor.py
lines 167 and 185). -/
def chunkId (pmid : Option Str) (idx : Nat) : Str :=
  pmid.getD "unknown".data ++ '_' :: (Nat.repr idx).data

/-- The sentence-accumulation loop of `split_into_chunks` (text_processor.py
lines 160-192), including the final-buffer emission. -/
def chunkLoop (chunk_size chunk_overlap : Nat) (pmid : Option Str) :
    List Str → Str → Nat → List TextChunk
  | [], current, idx =>
    if MedicalRAGSystem.pyStrip current ≠ [] then
      [⟨chunkId pmid idx, MedicalRAGSystem.pyStrip current, idx⟩]
    else []
  | s :: rest, current, idx =>
    if chunk_size < current.length + s.length ∧ current ≠ [] then
      ⟨chunkId pmid idx, MedicalRAGSystem.pyStrip current, idx⟩ ::
        chunkLoop chunk_size chunk_overlap pmid rest
          (get_overlap_text current chunk_overlap ++ ' ' :: s) (idx + 1)
    else
      chunkLoop chunk_size chunk_overlap pmid rest
        (if current = [] then s else current ++ ' ' :: s) idx

/-- `MedicalTextProcessor.split_into_chunks` (text_processor.py lines
140-195). -/
def split_into_chunks (chunk_size chunk_overlap : Nat) (pmid : Option Str)
    (text : Str) : List TextChunk :=
  if text = [] then []
  else chunkLoop chunk_size chunk_overlap pmid (split_into_sentences text) [] 0

end MedicalTextProcessor

/-! ### Auxiliary executable predicates and concrete fixtures -/

open MedicalRAGSystem MedicalTextProcessor

/-- Literal (case-sensitive) match of `pat` against the front of `s`. -/
def leadsEq : Str → Str → Bool
  | [], _ => true
  | _ :: _, [] => false
  | p :: ps, c :: cs => (p == c) && leadsEq ps cs

/-- Whether `pat` occurs as a contiguous substring of `s`. -/
def containsSub (pat : Str) : Str → Bool
  | [] => pat.isEmpty
  | c :: cs => leadsEq pat (c :: cs) || containsSub pat cs

/-- A search result metadata record carrying no renderable fields, used as a
concrete input in witnesses and counterexamples. -/
def mdNone : DocMetadata :=
  { title := none, authors := none, journal := none,
    publication_date := none, pmid := none }

/-- Does the overlap seed of claim C7 start at a whitespace boundary of the
buffer it was taken from?  True when the seed is the whole buffer, is empty,
or is immediately preceded in the buffer by a `' '`. -/
def seedsAtBoundary (buffer seed : Str) : Bool :=
  buffer.length == seed.length || seed.isEmpty ||
    (buffer.get? (buffer.length - seed.length - 1) == some ' ')

/-- Three sentences of lengths 30, 30 and 20 — none longer than a
`chunk_size` of 30 — used to exercise `split_into_chunks` with
`chunk_size = 30`, `overlap = 10`. -/
def chunkDemoText : Str :=
  List.replicate 30 'a' ++ ". ".data ++ List.replicate 30 'b'
    ++ ". ".data ++ List.replicate 20 'c'

/-! ## Theorems -/

/-- C2: for every question and context, a timeout of the generation-model
call yields exactly the fixed timeout message with `generation_time_ms = 0`,
and every failure class (timeout, connection failure, other) is surfaced as
the answer text paired with zero elapsed time; `generate_answer` is total,
so no failure propagates as an exception. -/
theorem C2_generate_answer_failure_fallback (question context : Str)
    (elapsed : ℚ) (detail : Str) :
    generate_answer question context .timeout elapsed = (timeoutMessage, 0) ∧
    generate_answer question context .connectionError elapsed
      = (connectionErrorMessage, 0) ∧
    generate_answer question context (.otherError detail) elapsed
      = (otherErrorMessage detail, 0) :=
  ⟨rfl, rfl, rfl⟩

/-- C8: if the translation model returns empty (or missing) text the
original query is returned unchanged; a transport/timeout error (the single
catch-all `except` branch) is treated identically, original query plus the
measured elapsed time; and the elapsed time is reported on every path, so
translation failure never raises. -/
theorem C8_translate_fallback (query : Str) (elapsed : ℚ) (r : Option Str) :
    translate_query_to_english .error elapsed query = (query, elapsed) ∧
    translate_query_to_english (.success (some [])) elapsed query
      = (query, elapsed) ∧
    translate_query_to_english (.success none) elapsed query
      = (query, elapsed) ∧
    (translate_query_to_english (.success r) elapsed query).2 = elapsed :=
  ⟨rfl, rfl, rfl, rfl⟩

/-- C4: the retrieval result is the threshold-filter of the candidate list
(in candidate order) truncated to the first `top_k` survivors: its length
never exceeds the effective `top_k`, every returned result passes the
effective threshold, and the result is an order-preserving sublist of the
candidates. -/
theorem C4_search_filter_then_truncate (candidates : List SearchResult)
    (translated : Str) (searchTime : ℚ) (top_k : Option Nat)
    (similarity_threshold : Option ℚ) :
    (search_relevant_documents candidates translated searchTime top_k
        similarity_threshold).1
      = (candidates.filter
          (fun r => pyOrQ similarity_threshold SIMILARITY_THRESHOLD
            ≤ r.similarity_score)).take (pyOrNat top_k SEARCH_TOP_K) ∧
    (search_relevant_documents candidates translated searchTime top_k
        similarity_threshold).1.length ≤ pyOrNat top_k SEARCH_TOP_K ∧
    (∀ r ∈ (search_relevant_documents candidates translated searchTime top_k
        similarity_threshold).1,
      pyOrQ similarity_threshold SIMILARITY_THRESHOLD ≤ r.similarity_score) ∧
    List.Sublist
      (search_relevant_documents candidates translated searchTime top_k
        similarity_threshold).1 candidates := by
  refine ⟨rfl, ?_, ?_, ?_⟩
  · exact List.length_take_le _ _
  · intro r hr
    have hr' : r ∈ candidates.filter
        (fun x => pyOrQ similarity_threshold SIMILARITY_THRESHOLD
          ≤ x.similarity_score) := List.mem_of_mem_take hr
    exact of_decide_eq_true (List.mem_filter.mp hr').2
  · exact ((List.take_sublist _ _).trans (List.filter_sublist _))

/-- C10: a caller-supplied `top_k = 0` — whatever the threshold argument —
or a caller-supplied `similarity_threshold = 0.0` — whatever the `top_k`
argument — is falsy in Python and replaced by the configured default
(`SEARCH_TOP_K = 5`, `SIMILARITY_THRESHOLD = 0.3`): retrieval and the whole
query response equal those of the omitted-argument call, the default is the
value actually used for truncation/filtering, and the response metadata
records it. -/
theorem C10_falsy_arguments_use_defaults (gen : Str → Str → Str × ℚ)
    (candidates : List SearchResult) (translated : Str)
    (searchTime totalTime : ℚ) (user_query : Str) (top_k : Option Nat)
    (similarity_threshold : Option ℚ) :
    search_relevant_documents candidates translated searchTime
        (some 0) similarity_threshold
      = search_relevant_documents candidates translated searchTime
          none similarity_threshold ∧
    search_relevant_documents candidates translated searchTime
        top_k (some 0)
      = search_relevant_documents candidates translated searchTime
          top_k none ∧
    (search_relevant_documents candidates translated searchTime
        (some 0) similarity_threshold).1
      = (candidates.filter
          (fun r => pyOrQ similarity_threshold SIMILARITY_THRESHOLD
            ≤ r.similarity_score)).take SEARCH_TOP_K ∧
    (search_relevant_documents candidates translated searchTime
        top_k (some 0)).1
      = (candidates.filter
          (fun r => SIMILARITY_THRESHOLD ≤ r.similarity_score)).take
          (pyOrNat top_k SEARCH_TOP_K) ∧
    MedicalRAGSystem.query gen candidates translated searchTime totalTime
        user_query (some 0) similarity_threshold
      = MedicalRAGSystem.query gen candidates translated searchTime totalTime
          user_query none similarity_threshold ∧
    MedicalRAGSystem.query gen candidates translated searchTime totalTime
        user_query top_k (some 0)
      = MedicalRAGSystem.query gen candidates translated searchTime totalTime
          user_query top_k none ∧
    (MedicalRAGSystem.query gen candidates translated searchTime totalTime
        user_query (some 0) similarity_threshold).metadata.requested_top_k
      = SEARCH_TOP_K ∧
    (MedicalRAGSystem.query gen candidates translated searchTime totalTime
        user_query top_k (some 0)).metadata.similarity_threshold
      = SIMILARITY_THRESHOLD := by
  refine ⟨rfl, rfl, rfl, rfl, rfl, rfl, ?_, ?_⟩ <;>
  · unfold MedicalRAGSystem.query
    dsimp only
    split <;> rfl

/-- C1: whenever the retrieval stage returns zero documents, `query` answers
with the fixed "no relevant literature" message, empty `source_documents`,
`generation_time_ms = 0.0`, metadata recording the translated query and the
effective threshold and `top_k` — and the response does not depend on the
generator at all (the generator is never invoked on this path). -/
theorem C1_query_no_documents (gen gen' : Str → Str → Str × ℚ)
    (candidates : List SearchResult) (translated : Str)
    (searchTime totalTime : ℚ) (user_query : Str) (top_k : Option Nat)
    (similarity_threshold : Option ℚ)
    (h : (search_relevant_documents candidates translated searchTime top_k
            similarity_threshold).1 = []) :
    MedicalRAGSystem.query gen candidates translated searchTime totalTime
        user_query top_k similarity_threshold
      = MedicalRAGSystem.query gen' candidates translated searchTime totalTime
          user_query top_k similarity_threshold ∧
    MedicalRAGSystem.query gen candidates translated searchTime totalTime
        user_query top_k similarity_threshold
      = { query := user_query
          answer := noDocumentsAnswer
          source_documents := []
          search_time_ms := searchTime
          generation_time_ms := 0
          total_time_ms := totalTime
          metadata :=
            { similarity_threshold :=
                pyOrQ similarity_threshold SIMILARITY_THRESHOLD
              requested_top_k := pyOrNat top_k SEARCH_TOP_K
              found_documents := 0
              ollama_model := none
              english_query := translated } } := by
  constructor <;>
  · unfold MedicalRAGSystem.query
    dsimp only
    rw [h]
    simp [search_relevant_documents]

/-- C3 counterexample: raising `similarity_threshold` from `0.0` to `0.25`
*increases* the result count (0 to 1) for a fixed candidate list with one
candidate of score `0.27`, because `0.0` is falsy and silently replaced by
the default threshold `0.3`, while `0.25` is used as given. -/
theorem C3_threshold_monotonicity_counterexample :
    (0 : ℚ) ≤ mkRat 1 4 ∧
    (search_relevant_documents
        [{ id := "d1".data, content := "c".data, metadata := mdNone,
           similarity_score := mkRat 27 100 }]
        [] 0 none (some 0)).1.length
      < (search_relevant_documents
          [{ id := "d1".data, content := "c".data, metadata := mdNone,
             similarity_score := mkRat 27 100 }]
          [] 0 none (some (mkRat 1 4))).1.length := by
  constructor
  · decide
  · decide

/-- C3 (amended): for positive thresholds `0 < t1 ≤ t2` (so that neither is
falsy-replaced by the default) and a candidate list sorted by descending
similarity — the order the vector index contract guarantees — the result
list at the higher threshold is a prefix of the result list at the lower
threshold, and in particular never longer. -/
theorem C3_threshold_monotonicity_amended (candidates : List SearchResult)
    (translated : Str) (searchTime : ℚ) (top_k : Option Nat) (t1 t2 : ℚ)
    (h0 : 0 < t1) (h12 : t1 ≤ t2)
    (hsorted : List.Pairwise
      (fun a b => b.similarity_score ≤ a.similarity_score) candidates) :
    (search_relevant_documents candidates translated searchTime top_k
        (some t2)).1.length
      ≤ (search_relevant_documents candidates translated searchTime top_k
          (some t1)).1.length ∧
    ∃ ext,
      (search_relevant_documents candidates translated searchTime top_k
          (some t2)).1 ++ ext
        = (search_relevant_documents candidates translated searchTime top_k
            (some t1)).1 := by
  have e1 : pyOrQ (some t1) SIMILARITY_THRESHOLD = t1 := by
    simp [pyOrQ, ne_of_gt h0]
  have e2 : pyOrQ (some t2) SIMILARITY_THRESHOLD = t2 := by
    simp [pyOrQ, ne_of_gt (lt_of_lt_of_le h0 h12)]
  have key : ∀ l : List SearchResult,
      List.Pairwise (fun a b => b.similarity_score ≤ a.similarity_score) l →
      ∃ ext, l.filter (fun r => t2 ≤ r.similarity_score) ++ ext
        = l.filter (fun r => t1 ≤ r.similarity_score) := by
    intro l hl
    induction l with
    | nil => exact ⟨[], rfl⟩
    | cons a l ih =>
      rcases List.pairwise_cons.mp hl with ⟨ha, hl'⟩
      by_cases h2 : t2 ≤ a.similarity_score
      · have h1 : t1 ≤ a.similarity_score := le_trans h12 h2
        rcases ih hl' with ⟨ext, hext⟩
        refine ⟨ext, ?_⟩
        rw [List.filter_cons_of_pos (by simpa using h2),
          List.filter_cons_of_pos (by simpa using h1), List.cons_append,
          hext]
      · have hnil : l.filter (fun r => t2 ≤ r.similarity_score) = [] := by
          rw [List.filter_eq_nil_iff]
          intro b hb
          simp only [decide_eq_true_eq]
          intro hb2
          exact h2 (le_trans hb2 (ha b hb))
        rw [List.filter_cons_of_neg (by simpa using h2), hnil]
        exact ⟨_, List.nil_append _⟩
  rcases key candidates hsorted with ⟨ext, hext⟩
  simp only [search_relevant_documents, e1, e2]
  constructor
  · have hsub : List.Sublist
        (candidates.filter (fun r => t2 ≤ r.similarity_score))
        (candidates.filter (fun r => t1 ≤ r.similarity_score)) := by
      refine List.monotone_filter_right _ ?_
      intro a ha
      have := of_decide_eq_true ha
      exact decide_eq_true (le_trans h12 this)
    simp only [List.length_take]
    exact min_le_min le_rfl hsub.length_le
  · refine ⟨List.take
      ((pyOrNat top_k SEARCH_TOP_K)
        - (candidates.filter (fun r => t2 ≤ r.similarity_score)).length)
      ext, ?_⟩
    rw [← List.take_append_eq_append_take, hext]

/-- Closed witness for C3 (amended): two candidates with scores 0.9 and 0.5,
thresholds 0.4 and 0.7; the higher threshold keeps only the first. -/
theorem C3_threshold_monotonicity_amended_witness :
    (search_relevant_documents
        [{ id := "a".data, content := "x".data, metadata := mdNone,
           similarity_score := mkRat 9 10 },
         { id := "b".data, content := "y".data, metadata := mdNone,
           similarity_score := mkRat 1 2 }]
        [] 0 none (some (mkRat 7 10))).1.length
      ≤ (search_relevant_documents
          [{ id := "a".data, content := "x".data, metadata := mdNone,
             similarity_score := mkRat 9 10 },
           { id := "b".data, content := "y".data, metadata := mdNone,
             similarity_score := mkRat 1 2 }]
          [] 0 none (some (mkRat 2 5))).1.length ∧
    ∃ ext,
      (search_relevant_documents
          [{ id := "a".data, content := "x".data, metadata := mdNone,
             similarity_score := mkRat 9 10 },
           { id := "b".data, content := "y".data, metadata := mdNone,
             similarity_score := mkRat 1 2 }]
          [] 0 none (some (mkRat 7 10))).1 ++ ext
        = (search_relevant_documents
            [{ id := "a".data, content := "x".data, metadata := mdNone,
               similarity_score := mkRat 9 10 },
             { id := "b".data, content := "y".data, metadata := mdNone,
               similarity_score := mkRat 1 2 }]
            [] 0 none (some (mkRat 2 5))).1 :=
  C3_threshold_monotonicity_amended
    [{ id := "a".data, content := "x".data, metadata := mdNone,
       similarity_score := mkRat 9 10 },
     { id := "b".data, content := "y".data, metadata := mdNone,
       similarity_score := mkRat 1 2 }]
    [] 0 none (mkRat 2 5) (mkRat 7 10) (by decide) (by decide) (by decide)

/-- C9 counterexample: with two plain results the assembled context is a
newline, the 80-character rule line, block 1, a single newline, block 2 —
the rule line appears only once, as a header before the first block, and the
text separating the two blocks (`"\n"`) does not contain it.  The blocks
are therefore *not* separated from each other by the rule line. -/
theorem C9_context_separator_counterexample :
    format_context_from_documents
        [{ id := "a".data, content := "A".data, metadata := mdNone,
           similarity_score := mkRat 1 2 },
         { id := "b".data, content := "B".data, metadata := mdNone,
           similarity_score := mkRat 1 2 }]
      = '\n' :: ruleLine
          ++ "【文献1】\n類似度: 0.500\n内容: A\n".data
          ++ '\n' :: "【文献2】\n類似度: 0.500\n内容: B\n".data ∧
    containsSub ruleLine "【文献1】\n類似度: 0.500\n内容: A\n".data = false ∧
    containsSub ruleLine "【文献2】\n類似度: 0.500\n内容: B\n".data = false ∧
    containsSub ruleLine "\n".data = false := by
  refine ⟨?_, ?_, ?_, ?_⟩ <;> decide

/-- C9 (amended): an empty result list yields the fixed "no relevant
literature found" sentence; a non-empty one yields a leading newline, the
80-character rule line once as a header, and the per-result blocks joined by
single newlines in input order, the `k`-th block rendering the `k`-th result
with 1-based label `k+1`. -/
theorem C9_context_assembly_amended (documents : List SearchResult) :
    format_context_from_documents documents
      = (if documents = [] then noRelevantContext
         else '\n' :: ruleLine
           ++ List.intercalate "\n".data (contextBlocks documents)) ∧
    (contextBlocks documents).length = documents.length ∧
    (∀ k d, documents[k]? = some d →
      (contextBlocks documents)[k]? = some (formatDocInfo (k + 1) d)) := by
  refine ⟨rfl, by simp [contextBlocks], ?_⟩
  intro k d hk
  simp [contextBlocks, List.getElem?_map, List.getElem?_enumFrom, hk,
    Nat.add_comm 1 k]

/-- Closed witness for C9 (amended): the single block of a one-result list
is the rendering of that result with label 1. -/
theorem C9_context_assembly_amended_witness :
    (contextBlocks
        [{ id := "a".data, content := "A".data, metadata := mdNone,
           similarity_score := mkRat 1 2 }])[0]?
      = some (formatDocInfo 1
          { id := "a".data, content := "A".data, metadata := mdNone,
            similarity_score := mkRat 1 2 }) :=
  (C9_context_assembly_amended _).2.2 0 _ rfl

/-- Closed witness for C1: an empty candidate list retrieves nothing, and
two different generators produce the identical fixed response. -/
theorem C1_query_no_documents_witness :
    MedicalRAGSystem.query (fun _ _ => ([], 1)) [] "covid".data 7 9
        "q".data none none
      = MedicalRAGSystem.query (fun q _ => (q, 2)) [] "covid".data 7 9
          "q".data none none ∧
    MedicalRAGSystem.query (fun _ _ => ([], 1)) [] "covid".data 7 9
        "q".data none none
      = { query := "q".data
          answer := noDocumentsAnswer
          source_documents := []
          search_time_ms := 7
          generation_time_ms := 0
          total_time_ms := 9
          metadata :=
            { similarity_threshold := pyOrQ none SIMILARITY_THRESHOLD
              requested_top_k := pyOrNat none SEARCH_TOP_K
              found_documents := 0
              ollama_model := none
              english_query := "covid".data } } :=
  C1_query_no_documents (fun _ _ => ([], 1)) (fun q _ => (q, 2)) []
    "covid".data 7 9 "q".data none none rfl

/-! ### Helper lemmas for the text-processor claims -/

/-- If `\b pat \b` matches nowhere in `s`, the substitution scanner leaves
`s` unchanged (for any amount of fuel). -/
theorem subWordCIF_no_match (pat repl : Str) :
    ∀ (fuel : Nat) (prev : Option Char) (s : Str),
      hasWordCI pat prev s = false →
      subWordCIF pat repl fuel prev s = s := by
  intro fuel
  induction fuel with
  | zero => intro prev s _; rfl
  | succ n ih =>
    intro prev s h
    cases s with
    | nil => rfl
    | cons c cs =>
      simp only [hasWordCI, Bool.or_eq_false_iff] at h
      rw [subWordCIF, if_neg (by simp [h.1])]
      exact congrArg (c :: ·) (ih (some c) cs h.2)

/-- If `\b pat \b` matches nowhere in `s`, the substitution leaves `s`
unchanged. -/
theorem subWordCI_no_match (pat repl s : Str)
    (h : hasWordCI pat none s = false) : subWordCI pat repl s = s :=
  subWordCIF_no_match pat repl s.length none s h

/-- A text in which no rule's pattern occurs is left unchanged by the whole
abbreviation fold. -/
theorem foldl_applyAbbrev_no_match (t : Str) :
    ∀ rules : List (Str × Str),
      (∀ pr ∈ rules, hasWordCI pr.1 none t = false) →
      rules.foldl applyAbbrev t = t := by
  intro rules
  induction rules with
  | nil => intro _; rfl
  | cons pr rules ih =>
    intro h
    have h1 : applyAbbrev t pr = t :=
      subWordCI_no_match pr.1 _ t (h pr (List.mem_cons_self _ _))
    rw [List.foldl_cons, h1]
    exact ih (fun q hq => h q (List.mem_cons_of_mem _ hq))

/-- C5 counterexample: a second application of `normalize_medical_terms`
expands the already-expanded occurrence of `MI` again — the inserted
parenthetical does *not* break the word boundary around the abbreviation
itself — so abbreviation expansion is not idempotent.  The failure is
specific to abbreviation expansion: the unit rewrites are idempotent on
their own (`"mg/dl"` normalizes to `"mg/dL"` on the first pass and stays
`"mg/dL"` on the second), as the second conjunct shows. -/
theorem C5_normalize_idempotent_counterexample :
    normalize_medical_terms (normalize_medical_terms "MI".data)
      ≠ normalize_medical_terms "MI".data ∧
    normalize_medical_terms (normalize_medical_terms "mg/dl".data)
      = normalize_medical_terms "mg/dl".data := by
  constructor
  · decide
  · decide

/-- C5 (amended): a text in which no abbreviation and no unit pattern
occurs as a case-insensitive whole word is a fixed point of
`normalize_medical_terms`, and on such texts applying expansion twice
yields the same text as applying it once.  This sufficient condition is not
necessary (unit-only texts such as `"mg/dl"` are also idempotent, see the
counterexample theorem): what fails is idempotence on texts containing an
abbreviation, whose already-expanded occurrence is re-expanded by the
second application. -/
theorem C5_normalize_idempotent_amended (t : Str)
    (h : ∀ pr ∈ medical_abbreviations, hasWordCI pr.1 none t = false)
    (h1 : hasWordCI "mg/dl".data none t = false)
    (h2 : hasWordCI "mmhg".data none t = false)
    (h3 : hasWordCI "kg/m2".data none t = false) :
    normalize_medical_terms t = t ∧
    normalize_medical_terms (normalize_medical_terms t)
      = normalize_medical_terms t := by
  have key : normalize_medical_terms t = t := by
    unfold normalize_medical_terms
    dsimp only
    rw [foldl_applyAbbrev_no_match t medical_abbreviations h,
      subWordCI_no_match _ _ _ h1, subWordCI_no_match _ _ _ h2,
      subWordCI_no_match _ _ _ h3]
  exact ⟨key, by rw [key, key]⟩

/-- Closed witness for C5 (amended): `"hello world"` contains no
abbreviation or unit pattern and is a fixed point of normalization. -/
theorem C5_normalize_idempotent_amended_witness :
    normalize_medical_terms "hello world".data = "hello world".data ∧
    normalize_medical_terms (normalize_medical_terms "hello world".data)
      = normalize_medical_terms "hello world".data :=
  C5_normalize_idempotent_amended "hello world".data (by decide) (by decide)
    (by decide) (by decide)

/-- `str.strip()` never lengthens a string. -/
theorem pyStrip_length_le (s : Str) : (pyStrip s).length ≤ s.length := by
  unfold pyStrip
  calc ((s.dropWhile isPySpace).reverse.dropWhile isPySpace).reverse.length
      = ((s.dropWhile isPySpace).reverse.dropWhile isPySpace).length :=
        List.length_reverse _
    _ ≤ (s.dropWhile isPySpace).reverse.length :=
        (List.dropWhile_sublist _).length_le
    _ = (s.dropWhile isPySpace).length := List.length_reverse _
    _ ≤ s.length := (List.dropWhile_sublist _).length_le

/-- For a positive overlap budget the overlap seed never exceeds it. -/
theorem get_overlap_text_length_le (text : Str) (ov : Nat) (hov : 1 ≤ ov) :
    (get_overlap_text text ov).length ≤ ov := by
  unfold get_overlap_text
  split
  · next h => exact h
  · next h =>
    dsimp only
    rw [if_neg (by omega : ¬ ov = 0)]
    have ht : (text.drop (text.length - ov)).length = ov := by
      rw [List.length_drop]; omega
    split
    · next i hi =>
      split
      · rw [List.length_drop, ht]; omega
      · exact le_of_eq ht
    · exact le_of_eq ht

/-- The overlap seed is always a trailing substring of the buffer it is
taken from. -/
theorem get_overlap_text_suffix (text : Str) (ov : Nat) :
    ∃ pre, pre ++ get_overlap_text text ov = text := by
  have hdrop : ∀ (l : Str) (n : Nat), ∃ pre, pre ++ l.drop n = l :=
    fun l n => ⟨l.take n, List.take_append_drop n l⟩
  unfold get_overlap_text
  split
  · exact ⟨[], rfl⟩
  · dsimp only
    rcases (by
      split
      · exact ⟨[], rfl⟩
      · exact hdrop text _ :
        ∃ pre, pre ++ (if ov = 0 then text
          else text.drop (text.length - ov)) = text) with ⟨p1, hp1⟩
    split
    · next i hi =>
      split
      · rcases hdrop (if ov = 0 then text
          else text.drop (text.length - ov)) (i + 1) with ⟨p2, hp2⟩
        exact ⟨p1 ++ p2, by rw [List.append_assoc, hp2, hp1]⟩
      · exact ⟨p1, hp1⟩
    · exact ⟨p1, hp1⟩

/-- Invariant of the chunk-accumulation loop: if every pending sentence is
at most `cs` long and the running buffer is within `cs + ov + 1`, then
every emitted chunk content is within `cs + ov + 1`. -/
theorem chunkLoop_content_bound (cs ov : Nat) (pmid : Option Str)
    (hov : 1 ≤ ov) :
    ∀ (sents : List Str), (∀ s ∈ sents, s.length ≤ cs) →
    ∀ (current : Str) (idx : Nat), current.length ≤ cs + ov + 1 →
    ∀ ch ∈ chunkLoop cs ov pmid sents current idx,
      ch.content.length ≤ cs + ov + 1 := by
  intro sents
  induction sents with
  | nil =>
    intro _ current idx hcur ch hch
    rw [chunkLoop] at hch
    split at hch
    · rcases List.mem_singleton.mp hch with rfl
      exact le_trans (pyStrip_length_le current) hcur
    · cases hch
  | cons s rest ih =>
    intro hs current idx hcur ch hch
    have hscs : s.length ≤ cs := hs s (List.mem_cons_self _ _)
    have hrest : ∀ x ∈ rest, x.length ≤ cs :=
      fun x hx => hs x (List.mem_cons_of_mem _ hx)
    rw [chunkLoop] at hch
    split at hch
    · next hcond =>
      rcases List.mem_cons.mp hch with rfl | hch'
      · exact le_trans (pyStrip_length_le current) hcur
      · refine ih hrest _ _ ?_ ch hch'
        have hle := get_overlap_text_length_le current ov hov
        simp only [List.length_append, List.length_cons]
        omega
    · next hcond =>
      refine ih hrest _ _ ?_ ch hch
      split
      · next => omega
      · next hne =>
        have : ¬ (cs < current.length + s.length) := by
          intro hlt
          exact hcond ⟨hlt, hne⟩
        simp only [List.length_append, List.length_cons]
        omega

/-- C6 counterexample: in `chunkDemoText` (three sentences of lengths 30,
30, 20) with `chunk_size = 30` and `overlap = 50`-style settings scaled to
`overlap = 10`, *no* sentence is longer than `chunk_size`, yet the middle
emitted chunk has length 41 > chunk_size + overlap = 40 (the overlap seed
plus the joining space plus a full-size sentence). -/
theorem C6_chunk_bound_counterexample :
    (∀ s ∈ split_into_sentences chunkDemoText, s.length ≤ 30) ∧
    ∃ ch ∈ split_into_chunks 30 10 none chunkDemoText,
      30 + 10 < ch.content.length := by
  constructor
  · decide
  · decide

/-- C6 (amended): when every sentence of the text is at most `chunk_size`
long and the overlap is positive, every chunk's content length is at most
`chunk_size + overlap + 1` — the extra character is the space joining the
overlap seed to the following sentence.  (A sentence longer than
`chunk_size` still yields an arbitrarily large chunk, whether or not it is
the sole chunk.) -/
theorem C6_chunk_bound_amended (cs ov : Nat) (pmid : Option Str) (text : Str)
    (hov : 1 ≤ ov)
    (hsent : ∀ s ∈ split_into_sentences text, s.length ≤ cs) :
    ∀ ch ∈ split_into_chunks cs ov pmid text,
      ch.content.length ≤ cs + ov + 1 := by
  intro ch hch
  unfold split_into_chunks at hch
  split at hch
  · cases hch
  · exact chunkLoop_content_bound cs ov pmid hov _ hsent [] 0 (by simp) ch hch

/-- Closed witness for C6 (amended): the oversized middle chunk of the
demonstration text still meets the corrected bound 30 + 10 + 1. -/
theorem C6_chunk_bound_amended_witness :
    ({ id := "unknown_1".data,
       content := List.replicate 10 'a' ++ ' ' :: List.replicate 30 'b',
       chunk_index := 1 } : TextChunk).content.length ≤ 30 + 10 + 1 :=
  C6_chunk_bound_amended 30 10 none chunkDemoText (by decide) (by decide) _
    (by decide)

/-- C7 counterexample: when the trailing `overlap` characters of the emitted
buffer contain no space, `_get_overlap_text` keeps the raw tail, which
starts mid-word: the seed taken from the 30-`'a'` chunk is 10 `'a'`s whose
preceding character in the buffer is another `'a'`, not whitespace — and
this buffer/seed pair actually arises in `split_into_chunks` on
`chunkDemoText` (the second chunk starts with that mid-word seed). -/
theorem C7_overlap_boundary_counterexample :
    get_overlap_text (List.replicate 30 'a') 10 = List.replicate 10 'a' ∧
    seedsAtBoundary (List.replicate 30 'a')
      (get_overlap_text (List.replicate 30 'a') 10) = false ∧
    (split_into_chunks 30 10 none chunkDemoText).map (fun ch => ch.content)
      = [List.replicate 30 'a',
         List.replicate 10 'a' ++ ' ' :: List.replicate 30 'b',
         List.replicate 10 'b' ++ ' ' :: List.replicate 20 'c'] := by
  refine ⟨?_, ?_, ?_⟩ <;> decide

/-- C7 (amended): for a positive overlap the seed is always a trailing
substring of the buffer of length at most `overlap`; it starts right after
the first space of the tail only when that space sits at a positive index —
a tail without a space (or with a space at index 0) is kept raw and may
start mid-word. -/
theorem C7_overlap_suffix_amended (buffer : Str) (ov : Nat) (hov : 1 ≤ ov) :
    (∃ pre, pre ++ get_overlap_text buffer ov = buffer) ∧
    (get_overlap_text buffer ov).length ≤ ov :=
  ⟨get_overlap_text_suffix buffer ov, get_overlap_text_length_le buffer ov hov⟩

/-- Closed witness for C7 (amended): the seed taken from `"hello world"`
with overlap 5 is a suffix of it, of length at most 5. -/
theorem C7_overlap_suffix_amended_witness :
    (∃ pre,
      pre ++ get_overlap_text "hello world".data 5 = "hello world".data) ∧
    (get_overlap_text "hello world".data 5).length ≤ 5 :=
  C7_overlap_suffix_amended "hello world".data 5 (by decide)
